import Mathlib

/-!
Shallow embedding of the `minecraft_status_plugin` repository
(`src/main.py` and `src/command_handler.py`).

Modelling conventions:
* timestamps are `Int` (epoch seconds); `datetime.timedelta(days=d)` is
  `d * 86400` seconds and `timedelta(hours=h)` is `h * 3600` seconds;
* response times (Python floats that are only summed / compared) are `ℚ`;
* the SQLite table `server_status_history` is a `List Row` in insertion
  order; an `INSERT` appends at the end;
* Python exceptions are modelled by `Except` values or explicit boolean
  failure oracles, as noted at each definition.
-/

/-- A row of the `server_status_history` table (`main.py` lines 86-97):
columns timestamp, server_ip, server_port, online_players, response_time,
status, error_message. -/
structure Row where
  timestamp : Int
  server_ip : String
  server_port : Int
  online_players : Option Int
  response_time : Option ℚ
  status : String
  error_message : Option String
deriving DecidableEq, Repr

/-! ### Python `int(...)` on strings (ASCII inputs)

`parse_server_address` calls `int(port)`.  The Python `int` builtin on a string
strips ASCII whitespace, accepts one optional sign, and then a non-empty
run of decimal digits in which single underscores may appear between two
digits.  (Non-ASCII digits are out of scope for this development.) -/

def isPySpace (c : Char) : Bool :=
  c = ' ' || c = '\t' || c = '\n' || c = '\r' || c = '\x0b' || c = '\x0c'

def pyStripWs (cs : List Char) : List Char :=
  ((cs.dropWhile isPySpace).reverse.dropWhile isPySpace).reverse

/-- Validity of a digit run for Python `int`: non-empty, each underscore
strictly between two digits, no doubled underscores. -/
def digRun : List Char → Bool
  | [] => false
  | [c] => c.isDigit
  | c :: '_' :: rest => c.isDigit && digRun rest
  | c :: rest => c.isDigit && digRun rest

/-- Numeric value of a valid digit run (underscores skipped). -/
def digVal (cs : List Char) : Int :=
  (cs.filter (fun c => c ≠ '_')).foldl (fun n c => n * 10 + (c.toNat - '0'.toNat)) 0

/-- Python `int(s)` for a string: `some n` on success, `none` when a
`ValueError` would be raised. -/
def pyInt (s : String) : Option Int :=
  match pyStripWs s.data with
  | '+' :: rest => if digRun rest then some (digVal rest) else none
  | '-' :: rest => if digRun rest then some (-(digVal rest)) else none
  | cs => if digRun cs then some (digVal cs) else none

/-! ### Address parser (`main.py` lines 842-856) -/

/-- Python `str.split` for a one-character separator: splits on every
occurrence of the separator, keeping empty segments. -/
def splitOnChar (sep : Char) : List Char → List (List Char)
  | [] => [[]]
  | c :: rest =>
    if c = sep then [] :: splitOnChar sep rest
    else
      match splitOnChar sep rest with
      | [] => [[c]]
      | g :: gs => (c :: g) :: gs

/-- Embedding of `parse_server_address`.  The Python code does
`ip, port = address.split(":")` inside a `try`: the unpacking raises
`ValueError` unless the split yields exactly two parts, and `int(port)`
raises `ValueError` on a non-numeric port; both are re-raised as the
"invalid address" `ValueError`.  Without a colon the default port 25565
is returned. -/
def parse_server_address (address : String) : Except String (String × Int) :=
  if address.data.contains ':' then
    match splitOnChar ':' address.data with
    | [ip, port] =>
      match pyInt ⟨port⟩ with
      | some n => .ok (⟨ip⟩, n)
      | none => .error address
    | _ => .error address
  else
    .ok (address, 25565)

/-! ### Name validation (`main.py` lines 858-866) -/

/-- Characters of the class `[a-zA-Z0-9_-]` used by `validate_server_name`. -/
def allowedNameChar (c : Char) : Bool :=
  c.isAlpha || c.isDigit || c = '_' || c = '-'

/-- Embedding of `validate_server_name`: a call of `re.match` with the
pattern `^[a-zA-Z0-9_-]+$` converted to `bool`.  Under Python `re`
semantics the dollar anchor matches at the end of the string or just
before a single newline at the end of the string, so the pattern matches
iff some non-empty prefix of allowed characters reaches either the end
or the position before one trailing newline character. -/
def validate_server_name (name : String) : Bool :=
  let cs := name.data
  (!cs.isEmpty && cs.all allowedNameChar) ||
    (!cs.dropLast.isEmpty && cs.dropLast.all allowedNameChar
      && cs.getLast? = some '\n')

deriving instance DecidableEq for Except

/-! ### History store: query (`get_server_history`, `main.py` lines 207-253)

The table is a `List Row` in insertion order; `INSERT` appends at the end.
The SQL query filters on `server_ip = ? AND server_port = ? AND
timestamp >= ?` and orders by `timestamp ASC`; we model `ORDER BY` as a
stable sort on the timestamp. -/

/-- Comparison used by `ORDER BY timestamp ASC`. -/
def rowLE (a b : Row) : Prop := a.timestamp ≤ b.timestamp

instance : DecidableRel rowLE := fun a b => Int.decLe a.timestamp b.timestamp

instance : IsTotal Row rowLE := ⟨fun a b => Int.le_total a.timestamp b.timestamp⟩

instance : IsTrans Row rowLE := ⟨fun _ _ _ h h' => Int.le_trans h h'⟩

/-- Row predicate of the SQL `WHERE` clause of `get_server_history`. -/
def rowMatches (ip : String) (port : Int) (since : Int) (r : Row) : Bool :=
  r.server_ip == ip && r.server_port == port && since ≤ r.timestamp

/-- The rows returned by the SQL query inside `get_server_history`:
the matching rows of the table, ascending by timestamp. -/
def queryRows (store : List Row) (ip : String) (port : Int) (since : Int) : List Row :=
  List.insertionSort rowLE (store.filter (rowMatches ip port since))

/-- One element of the history list built by `get_server_history`
(lines 233-242): note `is_online` is true only when **both** the stored
`online_players` is non-NULL and the stored status equals `online`. -/
structure HistEntry where
  timestamp : Int
  online_players : Option Int
  is_online : Bool
  response_time : Option ℚ
  status : String
  error_message : Option String
deriving DecidableEq, Repr

/-- The dictionary built from a fetched row in `get_server_history`. -/
def rowToHistEntry (r : Row) : HistEntry :=
  { timestamp := r.timestamp
    online_players := r.online_players
    is_online := r.online_players.isSome && r.status == "online"
    response_time := r.response_time
    status := r.status
    error_message := r.error_message }

/-- Embedding of `get_server_history`: `time_limit = now - timedelta(hours=hours)`,
then the query, then the per-row dictionary construction. -/
def get_server_history (store : List Row) (now : Int) (ip : String) (port : Int)
    (hours : Int) : List HistEntry :=
  (queryRows store ip port (now - hours * 3600)).map rowToHistEntry

/-! ### Statistics (`handle_stats_command`, `main.py` lines 719-748) -/

/-- Python `max` over a list, with 0 for the empty list (the code only
uses it behind a non-emptiness guard). -/
def listMaxI : List Int → Int
  | [] => 0
  | x :: xs => xs.foldl max x

/-- Python `min` over a list, with 0 for the empty list. -/
def listMinI : List Int → Int
  | [] => 0
  | x :: xs => xs.foldl min x

/-- Python `max` over a list of response times. -/
def listMaxQ : List ℚ → ℚ
  | [] => 0
  | x :: xs => xs.foldl max x

/-- Python `min` over a list of response times. -/
def listMinQ : List ℚ → ℚ
  | [] => 0
  | x :: xs => xs.foldl min x

/-- The statistics computed by `handle_stats_command`. -/
structure Summary where
  total_records : Nat
  online_records : Nat
  offline_records : Nat
  uptime_rate : ℚ
  avg_players : ℚ
  max_players_ever : Int
  min_players_ever : Int
  avg_response : ℚ
  max_response : ℚ
  min_response : ℚ
deriving DecidableEq, Repr

/-- Embedding of the statistics block of `handle_stats_command`
(lines 725-748), operating on the history list returned by
`get_server_history`. -/
def compute_stats (history : List HistEntry) : Summary :=
  let total_records := history.length
  let online_records := (history.filter (fun h => h.is_online)).length
  let offline_records := total_records - online_records
  let uptime_rate : ℚ :=
    if total_records > 0 then (online_records : ℚ) / (total_records : ℚ) * 100 else 0
  let online_players_list :=
    (history.filter (fun h => h.is_online && h.online_players.isSome)).filterMap
      (fun h => h.online_players)
  let response_times := history.filterMap (fun h => h.response_time)
  { total_records := total_records
    online_records := online_records
    offline_records := offline_records
    uptime_rate := uptime_rate
    avg_players :=
      if online_players_list.isEmpty then 0
      else ((online_players_list.sum : Int) : ℚ) / (online_players_list.length : ℚ)
    max_players_ever := if online_players_list.isEmpty then 0 else listMaxI online_players_list
    min_players_ever := if online_players_list.isEmpty then 0 else listMinI online_players_list
    avg_response :=
      if response_times.isEmpty then 0
      else response_times.sum / (response_times.length : ℚ)
    max_response := if response_times.isEmpty then 0 else listMaxQ response_times
    min_response := if response_times.isEmpty then 0 else listMinQ response_times }

/-! ### History store: writes (`save_server_status` /
`save_server_offline_status`, `main.py` lines 117-205)

The status argument of `save_server_status` is the dictionary returned
by `mcping.status`; the code only inspects its truthiness, its
`players` key, and the truthiness and `online` key of that value. -/

/-- The players sub-dictionary: Python truthiness plus the `online`
key (an absent key yields the default 0 through the `get` method). -/
structure MCPlayers where
  truthy : Bool
  online : Option Int
deriving DecidableEq, Repr

/-- The status dictionary returned by the probe: Python truthiness plus
the optional `players` entry. -/
structure MCStatus where
  truthy : Bool
  players : Option MCPlayers
deriving DecidableEq, Repr

/-- The row inserted by `save_server_status` (lines 136-152): the
players dictionary is read from the status document when the document is
truthy and defaults to an empty falsy one otherwise; the stored player
count is the `online` entry of that dictionary (default 0) when it is
truthy and NULL otherwise; the stored status text is `online` for a
truthy document and `offline` otherwise. -/
def save_server_status_row (now : Int) (ip : String) (port : Int) (st : MCStatus)
    (response_time : Option ℚ) (error_message : Option String) : Row :=
  let players : MCPlayers := if st.truthy then st.players.getD ⟨false, none⟩ else ⟨false, none⟩
  let online_players : Option Int := if players.truthy then some (players.online.getD 0) else none
  { timestamp := now
    server_ip := ip
    server_port := port
    online_players := online_players
    response_time := response_time
    status := if st.truthy then "online" else "offline"
    error_message := error_message }

/-- The row inserted by `save_server_offline_status` (lines 182-194). -/
def save_server_offline_status_row (now : Int) (ip : String) (port : Int)
    (response_time : Option ℚ) (error_message : Option String) : Row :=
  { timestamp := now
    server_ip := ip
    server_port := port
    online_players := none
    response_time := response_time
    status := "offline"
    error_message := error_message }

/-! ### Error behaviour of `save_server_status` (lines 129-163, with
`ensure_connection`, lines 55-72)

Failure oracles: `conn_valid` — the existing connection answers
`SELECT 1`; `init_ok` — `init_database_connection` succeeds;
`insert_ok` — the `INSERT` + `commit` succeed. -/

structure SaveEnv where
  conn_valid : Bool
  init_ok : Bool
  insert_ok : Bool
deriving DecidableEq, Repr

/-- `ensure_connection` succeeds iff the current connection is valid or a
fresh connection can be created (on an invalid connection it closes and
re-initialises; `init_database_connection` raises on failure). -/
def ensure_connection (env : SaveEnv) : Bool :=
  env.conn_valid || env.init_ok

/-- Observable outcome of one `save_server_status` call:
how many times the `INSERT` was attempted, whether a row was committed,
whether an exception escaped to the caller, and how many times the
`except` handler called `ensure_connection` to re-establish the
connection. -/
structure SaveResult where
  insert_attempts : Nat
  committed : Bool
  raised : Bool
  except_reconnects : Nat
deriving DecidableEq, Repr

/-- Control flow of `save_server_status`: the whole body runs in a
`try`; on any exception the handler logs, calls `ensure_connection`
once (itself wrapped in `try ... except: pass`), and returns normally. -/
def save_server_status_run (env : SaveEnv) : SaveResult :=
  if ensure_connection env then
    if env.insert_ok then
      { insert_attempts := 1, committed := true, raised := false, except_reconnects := 0 }
    else
      { insert_attempts := 1, committed := false, raised := false, except_reconnects := 1 }
  else
    { insert_attempts := 0, committed := false, raised := false, except_reconnects := 1 }

/-! ### Retention (`cleanup_old_data`, `main.py` lines 255-301, and
`handle_monitor_purge_command`, `command_handler.py` lines 170-231) -/

/-- Embedding of `cleanup_old_data` on a working store: counts the rows
with `timestamp < cutoff`; if none, returns the store unchanged with
count 0, otherwise deletes exactly those rows and returns their count.
The cutoff is `now - timedelta(days=days)`, i.e. `now - days * 86400`. -/
def cleanup_old_data (store : List Row) (now : Int) (days : Int) : List Row × Nat :=
  let cutoff := now - days * 86400
  let count_to_delete := store.countP (fun r => r.timestamp < cutoff)
  if count_to_delete = 0 then (store, 0)
  else (store.filter (fun r => !(r.timestamp < cutoff : Bool)), count_to_delete)

/-- Outcome of `handle_monitor_purge_command`: either a validation
rejection (store untouched), the empty-database early return (store
untouched), or a completed purge with the new store and deleted count. -/
inductive PurgeOutcome where
  | rejected (store : List Row)
  | noData (store : List Row)
  | done (store : List Row) (deleted : Nat)
deriving DecidableEq, Repr

/-- Embedding of `handle_monitor_purge_command`.  `arg` is the parsed
`command[2]`: `none` when fewer than three tokens were given (default 30
days), `some (.error ())` when `int(command[2])` raises `ValueError`,
`some (.ok d)` otherwise.  Validation: `d < 1` and `d > 365` are both
rejected before any store access. -/
def handle_monitor_purge_command (store : List Row) (now : Int)
    (arg : Option (Except Unit Int)) : PurgeOutcome :=
  let proceed : Int → PurgeOutcome := fun days =>
    if store.length = 0 then .noData store
    else
      let r := cleanup_old_data store now days
      .done r.1 r.2
  match arg with
  | none => proceed 30
  | some (.error _) => .rejected store
  | some (.ok d) =>
    if d < 1 then .rejected store
    else if d > 365 then .rejected store
    else proceed d

/-! ### Chart renderer (`generate_status_chart`, `main.py` lines 342-433) -/

/-- Chart file path built at line 425. -/
def chart_path (dir server_name ip : String) (port : Int) : String :=
  dir ++ "/charts/" ++ server_name ++ "_" ++ ip ++ "_" ++ toString port ++ "_status.png"

/-- Embedding of `generate_status_chart`.  The whole body runs inside
`try ... except: return None`; `render_ok` is the failure oracle for the
matplotlib work (font setup, plotting, `savefig`).  An empty retrieved
history returns `None` before any plotting. -/
def generate_status_chart (history : List HistEntry) (render_ok : Bool)
    (dir server_name ip : String) (port : Int) : Option String :=
  if history.isEmpty then none
  else if render_ok then some (chart_path dir server_name ip port) else none

/-! ### Poll tick (`monitor_all_servers`, `main.py` lines 435-472)

Configuration state: `bind_servers : mapping[group][name] -> address
string` and `monitor_servers : mapping[address string] -> bool`, both
modelled as association lists in insertion order (Python dict order). -/

/-- Monitor-flag read used throughout the code: the `get` method on the
monitor_servers dictionary with default `False`. -/
def monitorGet (monitor : List (String × Bool)) (addr : String) : Bool :=
  ((monitor.find? (fun p => p.1 == addr)).map (fun p => p.2)).getD false

/-- Adding one element to the Python `set` of unique `(ip, port)` pairs. -/
def addUnique (l : List (String × Int)) (a : String × Int) : List (String × Int) :=
  if a ∈ l then l else l ++ [a]

/-- Body of the inner collection loop of `monitor_all_servers` for one
binding `b = (server_name, server_address)`: if the monitor flag of the
address is set, parse it and add the pair to the set; a parse failure
(`ValueError`) is logged and skipped. -/
def pollStep (monitor : List (String × Bool)) (acc : List (String × Int))
    (b : String × String) : List (String × Int) :=
  if monitorGet monitor b.2 then
    match parse_server_address b.2 with
    | .ok a => addUnique acc a
    | .error _ => acc
  else acc

/-- The deduplicated set of `(ip, port)` pairs built in the first half of
`monitor_all_servers` (lines 439-450): every binding of every group whose
address string has its monitor flag set, parsed. -/
def collectUniqueServers (bind : List (Int × List (String × String)))
    (monitor : List (String × Bool)) : List (String × Int) :=
  bind.foldl (fun acc g => g.2.foldl (pollStep monitor) acc) []

/-- The body of the per-address loop (lines 453-469): probe, then save.
`probe a = .ok st` models a successful `get_server_status` call and
`probe a = .error msg` a raised exception with message `msg`; on success
the online/offline row of `save_server_status` is inserted with the
measured response time, on failure the `except` branch inserts the
offline row of `save_server_offline_status` with the error message. -/
def monitor_one_server (now : Int) (probe : String × Int → Except String MCStatus)
    (rt : String × Int → ℚ) (a : String × Int) : Row :=
  match probe a with
  | .ok st => save_server_status_row now a.1 a.2 st (some (rt a)) none
  | .error msg => save_server_offline_status_row now a.1 a.2 none (some msg)

/-- Embedding of one full `monitor_all_servers` tick: the rows appended
to the store.  The function is total — the per-address `try/except`
confines a probe failure to its own address (it becomes an offline row),
and the surrounding `try/except` means the tick never raises. -/
def monitor_all_servers (bind : List (Int × List (String × String)))
    (monitor : List (String × Bool)) (now : Int)
    (probe : String × Int → Except String MCStatus) (rt : String × Int → ℚ) : List Row :=
  (collectUniqueServers bind monitor).map (monitor_one_server now probe rt)

/-! ### Monitor set (`handle_monitor_set_command`,
`command_handler.py` lines 79-128) -/

/-- Lookup in an association list (Python `dict` access / `in`). -/
def lookupAssoc : List (String × Bool) → String → Option Bool
  | [], _ => none
  | p :: rest, k => if p.1 == k then some p.2 else lookupAssoc rest k

/-- Python `dict` assignment `m[k] = v`: updates the entry in place when
the key exists (keeping its position), otherwise appends a new entry. -/
def setAssoc : List (String × Bool) → String → Bool → List (String × Bool)
  | [], k, v => [(k, v)]
  | p :: rest, k, v => if p.1 == k then (k, v) :: rest else p :: setAssoc rest k v

/-- Lookup of a name in the binding table of one group. -/
def lookupBind : List (String × String) → String → Option String
  | [], _ => none
  | p :: rest, k => if p.1 == k then some p.2 else lookupBind rest k

/-- Python `str.lower` for the ASCII command words involved here. -/
def pyLower (s : String) : String :=
  ⟨s.data.map Char.toLower⟩

/-- Result of `handle_monitor_set_command`: the (possibly updated)
`monitor_servers` map and whether a reply was sent. -/
structure SetOutcome where
  monitor : List (String × Bool)
  replied : Bool
deriving DecidableEq, Repr

/-- Embedding of `handle_monitor_set_command`.  `groupServers` is
`bind_servers[group_id]` (`none` when the group is absent).  Flow:
argument-count check, status-word check, binding check, then the silent
early return when disabling an address that has no entry in
`monitor_servers`, else the single-key update plus confirmation reply. -/
def handle_monitor_set_command (groupServers : Option (List (String × String)))
    (monitor : List (String × Bool)) (command : List String) : SetOutcome :=
  match command with
  | _ :: _ :: server_name :: monitor_status_raw :: _ =>
    let monitor_status := pyLower monitor_status_raw
    if !(monitor_status == "on" || monitor_status == "off"
        || monitor_status == "true" || monitor_status == "false") then
      { monitor := monitor, replied := true }
    else
      match groupServers with
      | none => { monitor := monitor, replied := true }
      | some servers =>
        match lookupBind servers server_name with
        | none => { monitor := monitor, replied := true }
        | some server_address =>
          let is_monitoring := monitor_status == "on" || monitor_status == "true"
          if (lookupAssoc monitor server_address) = none && !is_monitoring then
            { monitor := monitor, replied := false }
          else
            { monitor := setAssoc monitor server_address is_monitoring, replied := true }
  | _ => { monitor := monitor, replied := true }

/-- An address pair is monitored when some binding of some group refers
to an address string whose monitor flag is set and that parses to it. -/
def MonitoredAddr (bind : List (Int × List (String × String)))
    (monitor : List (String × Bool)) (x : String × Int) : Prop :=
  ∃ g ∈ bind, ∃ b ∈ g.2,
    monitorGet monitor b.2 = true ∧ parse_server_address b.2 = .ok x

/-- Number of rows in a list whose address columns equal the given pair. -/
def obsCount (rows : List Row) (x : String × Int) : Nat :=
  rows.countP (fun r => r.server_ip == x.1 && r.server_port == x.2)

/-- The row used by the counterexample to claim C3: status column
`online` but a NULL player count (producible by `save_server_status`
when the probe document is truthy but has no truthy players entry). -/
def c3row : Row :=
  { timestamp := 0, server_ip := "h", server_port := 25565, online_players := none
    response_time := none, status := "online", error_message := none }

/-- Spec-side count for the amended claim C3: rows that are online with
a player count present (the quantity the code actually counts). -/
def specOnlineCount (rows : List Row) : Nat :=
  rows.countP (fun r => r.online_players.isSome && r.status == "online")

/-- Spec-side player-count sample for claim C3: player counts of rows
with status online and a player count present. -/
def specPlayers (rows : List Row) : List Int :=
  (rows.filter (fun r => r.online_players.isSome && r.status == "online")).filterMap
    (fun r => r.online_players)

/-- Spec-side response-time sample for claim C3: all response times
present, regardless of status. -/
def specResp (rows : List Row) : List ℚ :=
  rows.filterMap (fun r => r.response_time)

/-! ## Helper lemmas -/

theorem mem_addUnique {l : List (String × Int)} {a x : String × Int} :
    x ∈ addUnique l a ↔ x ∈ l ∨ x = a := by
  unfold addUnique
  split
  · next h =>
    constructor
    · exact fun hx => Or.inl hx
    · rintro (hx | rfl)
      · exact hx
      · exact h
  · simp [List.mem_append]

theorem nodup_addUnique {l : List (String × Int)} (h : l.Nodup) (a : String × Int) :
    (addUnique l a).Nodup := by
  unfold addUnique
  split
  · exact h
  · next hna => exact List.Nodup.append h (List.nodup_singleton a) (by simpa using hna)

theorem mem_pollStep {monitor : List (String × Bool)} {acc : List (String × Int)}
    {b : String × String} {x : String × Int} :
    x ∈ pollStep monitor acc b ↔
      x ∈ acc ∨ (monitorGet monitor b.2 = true ∧ parse_server_address b.2 = .ok x) := by
  unfold pollStep
  split
  · next hm =>
    split
    · next a ha =>
      rw [mem_addUnique]
      constructor
      · rintro (hx | rfl)
        · exact Or.inl hx
        · exact Or.inr ⟨hm, ha⟩
      · rintro (hx | ⟨-, hpx⟩)
        · exact Or.inl hx
        · rw [ha] at hpx
          injection hpx with hax
          exact Or.inr hax.symm
    · next e he =>
      constructor
      · exact Or.inl
      · rintro (hx | ⟨-, hpx⟩)
        · exact hx
        · rw [he] at hpx
          cases hpx
  · next hm =>
    constructor
    · exact Or.inl
    · rintro (hx | ⟨hmt, -⟩)
      · exact hx
      · exact absurd hmt hm

theorem nodup_pollStep {monitor : List (String × Bool)} {acc : List (String × Int)}
    (h : acc.Nodup) (b : String × String) : (pollStep monitor acc b).Nodup := by
  unfold pollStep
  split
  · split
    · exact nodup_addUnique h _
    · exact h
  · exact h

theorem mem_foldl_pollStep {monitor : List (String × Bool)}
    (servers : List (String × String)) (acc : List (String × Int)) (x : String × Int) :
    x ∈ servers.foldl (pollStep monitor) acc ↔
      x ∈ acc ∨ ∃ b ∈ servers,
        monitorGet monitor b.2 = true ∧ parse_server_address b.2 = .ok x := by
  induction servers generalizing acc with
  | nil => simp
  | cons b rest ih =>
    rw [List.foldl_cons, ih, mem_pollStep]
    simp only [List.mem_cons]
    constructor
    · rintro ((hx | hb) | ⟨c, hc, hcond⟩)
      · exact Or.inl hx
      · exact Or.inr ⟨b, Or.inl rfl, hb⟩
      · exact Or.inr ⟨c, Or.inr hc, hcond⟩
    · rintro (hx | ⟨c, (rfl | hc), hcond⟩)
      · exact Or.inl (Or.inl hx)
      · exact Or.inl (Or.inr hcond)
      · exact Or.inr ⟨c, hc, hcond⟩

theorem nodup_foldl_pollStep {monitor : List (String × Bool)}
    (servers : List (String × String)) {acc : List (String × Int)} (h : acc.Nodup) :
    (servers.foldl (pollStep monitor) acc).Nodup := by
  induction servers generalizing acc with
  | nil => exact h
  | cons b rest ih => exact ih (nodup_pollStep h b)

theorem mem_collectUniqueServers (bind : List (Int × List (String × String)))
    (monitor : List (String × Bool)) (x : String × Int) :
    x ∈ collectUniqueServers bind monitor ↔ MonitoredAddr bind monitor x := by
  unfold collectUniqueServers MonitoredAddr
  suffices h : ∀ acc : List (String × Int),
      x ∈ bind.foldl (fun acc g => g.2.foldl (pollStep monitor) acc) acc ↔
        x ∈ acc ∨ ∃ g ∈ bind, ∃ b ∈ g.2,
          monitorGet monitor b.2 = true ∧ parse_server_address b.2 = .ok x by
    rw [h []]
    simp
  intro acc
  induction bind generalizing acc with
  | nil => simp
  | cons g rest ih =>
    rw [List.foldl_cons, ih, mem_foldl_pollStep]
    simp only [List.mem_cons]
    constructor
    · rintro ((hx | ⟨b, hb, hcond⟩) | ⟨g2, hg2, hrest⟩)
      · exact Or.inl hx
      · exact Or.inr ⟨g, Or.inl rfl, b, hb, hcond⟩
      · exact Or.inr ⟨g2, Or.inr hg2, hrest⟩
    · rintro (hx | ⟨g2, (rfl | hg2), hrest⟩)
      · exact Or.inl (Or.inl hx)
      · exact Or.inl (Or.inr hrest)
      · exact Or.inr ⟨g2, hg2, hrest⟩

theorem nodup_collectUniqueServers (bind : List (Int × List (String × String)))
    (monitor : List (String × Bool)) : (collectUniqueServers bind monitor).Nodup := by
  unfold collectUniqueServers
  suffices h : ∀ acc : List (String × Int), acc.Nodup →
      (bind.foldl (fun acc g => g.2.foldl (pollStep monitor) acc) acc).Nodup from
    h [] List.nodup_nil
  intro acc hacc
  induction bind generalizing acc with
  | nil => exact hacc
  | cons g rest ih => exact ih _ (nodup_foldl_pollStep g.2 hacc)

theorem countP_pair_of_nodup {l : List (String × Int)} (h : l.Nodup) (x : String × Int) :
    l.countP (fun a => a.1 == x.1 && a.2 == x.2) = if x ∈ l then 1 else 0 := by
  induction l with
  | nil => simp
  | cons a rest ih =>
    rw [List.countP_cons]
    rcases List.nodup_cons.mp h with ⟨hna, hrest⟩
    by_cases hax : a = x
    · subst hax
      have h0 : rest.countP (fun b => b.1 == a.1 && b.2 == a.2) = 0 := by
        rw [List.countP_eq_zero]
        intro b hb
        simp only [Bool.and_eq_true, beq_iff_eq]
        rintro ⟨h1, h2⟩
        exact hna (by rwa [show b = a from Prod.ext h1 h2] at hb)
      simp [h0, ih hrest]
    · have hpa : (a.1 == x.1 && a.2 == x.2) = false := by
        by_contra hc
        rw [Bool.not_eq_false, Bool.and_eq_true, beq_iff_eq, beq_iff_eq] at hc
        exact hax (Prod.ext hc.1 hc.2)
      have hxa : ¬ x = a := fun hc => hax hc.symm
      rw [ih hrest, hpa]
      simp [List.mem_cons, hxa]

theorem monitor_one_server_addr (now : Int) (probe : String × Int → Except String MCStatus)
    (rt : String × Int → ℚ) (a : String × Int) :
    (monitor_one_server now probe rt a).server_ip = a.1 ∧
      (monitor_one_server now probe rt a).server_port = a.2 := by
  unfold monitor_one_server
  cases probe a <;>
    simp [save_server_status_row, save_server_offline_status_row]

theorem obsCount_monitor_all_servers (bind : List (Int × List (String × String)))
    (monitor : List (String × Bool)) (now : Int)
    (probe : String × Int → Except String MCStatus) (rt : String × Int → ℚ)
    (x : String × Int) :
    obsCount (monitor_all_servers bind monitor now probe rt) x =
      if x ∈ collectUniqueServers bind monitor then 1 else 0 := by
  unfold obsCount monitor_all_servers
  rw [List.countP_map]
  have hpt : ∀ a : String × Int,
      ((fun r : Row => r.server_ip == x.1 && r.server_port == x.2) ∘
        monitor_one_server now probe rt) a = (a.1 == x.1 && a.2 == x.2) := by
    intro a
    rcases monitor_one_server_addr now probe rt a with ⟨h1, h2⟩
    simp [Function.comp, h1, h2]
  rw [List.countP_congr (fun a _ => by rw [hpt a])]
  exact countP_pair_of_nodup (nodup_collectUniqueServers bind monitor) x

theorem lookupAssoc_setAssoc (m : List (String × Bool)) (k : String) (v : Bool)
    (a : String) :
    lookupAssoc (setAssoc m k v) a = if a = k then some v else lookupAssoc m a := by
  induction m with
  | nil =>
    by_cases hak : a = k
    · simp [setAssoc, lookupAssoc, hak]
    · have hka : ¬ k = a := fun hc => hak hc.symm
      simp [setAssoc, lookupAssoc, hak, hka]
  | cons p rest ih =>
    by_cases hpk : p.1 = k
    · by_cases hak : a = k
      · simp [setAssoc, lookupAssoc, hpk, hak]
      · have hka : ¬ k = a := fun hc => hak hc.symm
        have hpa : ¬ p.1 = a := fun hc => hak (hc.symm.trans hpk)
        simp [setAssoc, lookupAssoc, hpk, hak, hka, hpa]
    · by_cases hpa : p.1 = a
      · have hak : ¬ a = k := fun hc => hpk (hpa.trans hc)
        simp [setAssoc, lookupAssoc, hpk, hpa, hak]
      · simp [setAssoc, lookupAssoc, hpk, hpa, ih]

/-! ## Claim theorems -/

/-- Claim C6, counterexample: the claim says parsing the address `:1234`
(empty host) fails with an address-format error, but
`parse_server_address` performs no empty-host check and returns the pair
of empty host and port 1234. -/
theorem claim_C6_counterexample : parse_server_address ":1234" = .ok ("", 1234) := by
  decide

/-- Claim C6, amended: address parsing splits on the colon and applies
default port 25565 when no colon is present; an input that splits into
anything other than exactly two segments (e.g. two or more colons) is
rejected, so the split is not on the last colon; a non-numeric port is
rejected; an empty host is accepted, so parsing the address `:1234`
returns the pair of empty host and port 1234 instead of failing. -/
theorem claim_C6_amended :
    (∀ s : String, s.data.contains ':' = false → parse_server_address s = .ok (s, 25565)) ∧
      parse_server_address "host:1234" = .ok ("host", 1234) ∧
      parse_server_address "host:abc" = .error "host:abc" ∧
      parse_server_address ":1234" = .ok ("", 1234) ∧
      parse_server_address "a:b:c" = .error "a:b:c" := by
  refine ⟨fun s hs => ?_, by decide, by decide, by decide, by decide⟩
  unfold parse_server_address
  rw [hs]
  simp

/-- Claim C6, witness: the amended theorem applied to the concrete
colon-free address `host`. -/
theorem claim_C6_witness : parse_server_address "host" = .ok ("host", 25565) :=
  claim_C6_amended.1 "host" (by decide)

/-- Claim C9: the code evaluated at the failing input.  The name
`abc` followed by a newline contains a character outside the class
`[A-Za-z0-9_-]`, so the claim (and the comment in the source) says
validation must return false; the code returns true because the dollar
anchor of Python `re` also matches just before a trailing newline.  The
spec example points are also checked. -/
theorem claim_C9_code_bug :
    validate_server_name "abc\n" = true ∧
      ("abc\n".data.all allowedNameChar) = false ∧
      validate_server_name "My-Server_1" = true ∧
      validate_server_name "bad name!" = false := by
  decide

/-- Claim C4, counterexample: with a valid connection and a failing
`INSERT`, the claim says the store retries the operation once (two
insert attempts) and, the retry failing too, propagates a store-write
error; the code makes exactly one insert attempt and returns without
raising. -/
theorem claim_C4_counterexample :
    (save_server_status_run ⟨true, true, false⟩).insert_attempts = 1 ∧
      (save_server_status_run ⟨true, true, false⟩).raised = false := by
  decide

/-- Claim C4, amended: persistence errors in `save_server_status` DO
fail silently — on any failure the function logs, attempts one
reconnect (`ensure_connection` in the `except` handler), never retries
the `INSERT`, and never propagates an error to the caller; a row is
committed exactly when the connection could be ensured and the single
insert attempt succeeded. -/
theorem claim_C4_amended (env : SaveEnv) :
    (save_server_status_run env).raised = false ∧
      (save_server_status_run env).insert_attempts ≤ 1 ∧
      (save_server_status_run env).committed = (ensure_connection env && env.insert_ok) ∧
      ((save_server_status_run env).committed = false →
        (save_server_status_run env).except_reconnects = 1) := by
  rcases env with ⟨a, b, c⟩
  cases a <;> cases b <;> cases c <;> decide

/-- Claim C4, witness: the amended theorem applied at the environment
whose insert fails, showing the silent reconnect-without-retry. -/
theorem claim_C4_witness :
    (save_server_status_run ⟨true, true, false⟩).except_reconnects = 1 :=
  (claim_C4_amended ⟨true, true, false⟩).2.2.2 (by decide)

/-- Claim C8: chart rendering returns no image path (and does not raise,
being a total function) when the retrieved history is empty, and any
rendering failure inside the try block also yields no image path instead
of a propagated exception. -/
theorem claim_C8_chart (history : List HistEntry) (ok : Bool)
    (dir server_name ip : String) (port : Int) :
    generate_status_chart [] ok dir server_name ip port = none ∧
      generate_status_chart history false dir server_name ip port = none := by
  constructor
  · rfl
  · cases history <;> simp [generate_status_chart]

/-- Claim C2: the history query returns a permutation of exactly the
stored rows for the address with timestamp at least the bound, in
ascending timestamp order; the empty list (not an error) when no row
matches; and the append/query round trip over a store with no prior rows
for the address returns exactly the appended rows, ascending. -/
theorem claim_C2_query (store newRows : List Row) (ip : String) (port since : Int) :
    (queryRows store ip port since).Perm (store.filter (rowMatches ip port since)) ∧
      List.Sorted rowLE (queryRows store ip port since) ∧
      ((∀ r ∈ store, rowMatches ip port since r = false) →
        queryRows store ip port since = []) ∧
      ((∀ r ∈ store, ¬(r.server_ip = ip ∧ r.server_port = port)) →
        (∀ r ∈ newRows, r.server_ip = ip ∧ r.server_port = port ∧ since ≤ r.timestamp) →
        (queryRows (store ++ newRows) ip port since).Perm newRows ∧
          List.Sorted rowLE (queryRows (store ++ newRows) ip port since)) := by
  refine ⟨List.perm_insertionSort rowLE _, List.sorted_insertionSort rowLE _, ?_, ?_⟩
  · intro h
    unfold queryRows
    rw [List.filter_eq_nil_iff.mpr (fun r hr => by simp [h r hr])]
    rfl
  · intro hold hnew
    have hfilter : (store ++ newRows).filter (rowMatches ip port since) = newRows := by
      rw [List.filter_append]
      have h1 : store.filter (rowMatches ip port since) = [] := by
        rw [List.filter_eq_nil_iff]
        intro r hr hm
        simp only [rowMatches, Bool.and_eq_true, beq_iff_eq] at hm
        exact hold r hr ⟨hm.1.1, hm.1.2⟩
      have h2 : newRows.filter (rowMatches ip port since) = newRows := by
        rw [List.filter_eq_self]
        intro r hr
        rcases hnew r hr with ⟨ha, hb, hc⟩
        simp [rowMatches, ha, hb, hc]
      rw [h1, h2, List.nil_append]
    constructor
    · unfold queryRows
      rw [hfilter]
      exact List.perm_insertionSort rowLE _
    · exact List.sorted_insertionSort rowLE _

/-- Claim C2, witness: the round-trip part applied to an empty store and
two appended observations for the address, given out of timestamp
order. -/
theorem claim_C2_witness :
    (queryRows ([] ++ [⟨5, "h", 25565, none, none, "offline", none⟩,
        ⟨3, "h", 25565, none, none, "offline", none⟩]) "h" 25565 0).Perm
      [⟨5, "h", 25565, none, none, "offline", none⟩,
        ⟨3, "h", 25565, none, none, "offline", none⟩] ∧
      List.Sorted rowLE (queryRows ([] ++ [⟨5, "h", 25565, none, none, "offline", none⟩,
        ⟨3, "h", 25565, none, none, "offline", none⟩]) "h" 25565 0) :=
  (claim_C2_query [] [⟨5, "h", 25565, none, none, "offline", none⟩,
      ⟨3, "h", 25565, none, none, "offline", none⟩] "h" 25565 0).2.2.2
    (by simp) (by decide)

/-- Claim C3, counterexample: a history consisting of one stored row
with status online but a NULL player count.  The claim says the online
count equals the number of observations whose status is online (here 1);
the code counts via the is_online flag, which also requires a player
count, and yields 0. -/
theorem claim_C3_counterexample :
    (compute_stats [rowToHistEntry c3row]).online_records = 0 ∧
      ([rowToHistEntry c3row].countP (fun h => h.status == "online")) = 1 ∧
      (compute_stats [rowToHistEntry c3row]).online_records ≠
        [rowToHistEntry c3row].countP (fun h => h.status == "online") := by
  decide

/-- Claim C3, amended: over any stored rows, the summary computes
total as the row count; the online count as the number of rows that have
status online AND a player count present (not merely status online);
offline as total minus that count; the uptime rate accordingly (0 for an
empty history); player statistics (mean, max, min) over rows with status
online and a player count present, defaulting to 0 when that set is
empty; and response-time statistics over all rows with a response time
present regardless of status, defaulting to 0 when empty. -/
theorem claim_C3_amended (rows : List Row) :
    compute_stats (rows.map rowToHistEntry) =
      { total_records := rows.length
        online_records := specOnlineCount rows
        offline_records := rows.length - specOnlineCount rows
        uptime_rate := if rows.length > 0 then
            (specOnlineCount rows : ℚ) / (rows.length : ℚ) * 100 else 0
        avg_players := if (specPlayers rows).isEmpty then 0
            else (((specPlayers rows).sum : Int) : ℚ) / ((specPlayers rows).length : ℚ)
        max_players_ever := if (specPlayers rows).isEmpty then 0
            else listMaxI (specPlayers rows)
        min_players_ever := if (specPlayers rows).isEmpty then 0
            else listMinI (specPlayers rows)
        avg_response := if (specResp rows).isEmpty then 0
            else (specResp rows).sum / ((specResp rows).length : ℚ)
        max_response := if (specResp rows).isEmpty then 0 else listMaxQ (specResp rows)
        min_response := if (specResp rows).isEmpty then 0 else listMinQ (specResp rows) } := by
  have hq : (fun h : HistEntry => h.is_online && h.online_players.isSome) ∘ rowToHistEntry
      = fun r : Row => r.online_players.isSome && r.status == "online" := by
    funext r
    show ((rowToHistEntry r).is_online && (rowToHistEntry r).online_players.isSome) = _
    cases hr : r.online_players.isSome <;> simp [rowToHistEntry, hr]
  have hplayers : ((rows.map rowToHistEntry).filter
        (fun h => h.is_online && h.online_players.isSome)).filterMap
        (fun h => h.online_players) = specPlayers rows := by
    rw [List.filter_map, List.filterMap_map, hq]
    rfl
  have hresp : (rows.map rowToHistEntry).filterMap (fun h => h.response_time)
      = specResp rows := by
    rw [List.filterMap_map]
    rfl
  have honline : ((rows.map rowToHistEntry).filter (fun h => h.is_online)).length
      = specOnlineCount rows := by
    rw [List.filter_map, List.length_map]
    rw [show (fun h : HistEntry => h.is_online) ∘ rowToHistEntry
        = (fun r : Row => r.online_players.isSome && r.status == "online") from rfl]
    rw [← List.countP_eq_length_filter]
    rfl
  unfold compute_stats
  simp only [List.length_map, honline, hplayers, hresp]

/-- Claim C7: retention-days validation rejects 0 and 366 (store
untouched), accepts 1 and 365 (never a validation rejection), and an
accepted purge over a non-empty store deletes exactly the rows with
timestamp strictly older than the cutoff of now minus the retention
period, reporting their number — 0 (not an error) when none qualify. -/
theorem claim_C7_purge (store : List Row) (now d : Int) :
    handle_monitor_purge_command store now (some (.ok 0)) = .rejected store ∧
      handle_monitor_purge_command store now (some (.ok 366)) = .rejected store ∧
      (∀ s : List Row, handle_monitor_purge_command store now (some (.ok 1))
        ≠ .rejected s) ∧
      (∀ s : List Row, handle_monitor_purge_command store now (some (.ok 365))
        ≠ .rejected s) ∧
      (1 ≤ d → d ≤ 365 → store ≠ [] →
        handle_monitor_purge_command store now (some (.ok d)) =
          .done (store.filter (fun r => !(r.timestamp < now - d * 86400 : Bool)))
            (store.countP (fun r => r.timestamp < now - d * 86400))) := by
  have hdef : ∀ dd : Int, handle_monitor_purge_command store now (some (.ok dd)) =
      if dd < 1 then .rejected store
      else if dd > 365 then .rejected store
      else if store.length = 0 then .noData store
      else .done (cleanup_old_data store now dd).1 (cleanup_old_data store now dd).2 :=
    fun _ => rfl
  have hclean : cleanup_old_data store now d =
      (store.filter (fun r => !(r.timestamp < now - d * 86400 : Bool)),
        store.countP (fun r => r.timestamp < now - d * 86400)) := by
    have hc : cleanup_old_data store now d =
        if store.countP (fun r => decide (r.timestamp < now - d * 86400)) = 0 then (store, 0)
        else (store.filter (fun r => !decide (r.timestamp < now - d * 86400)),
          store.countP (fun r => decide (r.timestamp < now - d * 86400))) := rfl
    rw [hc]
    by_cases h0 : store.countP (fun r => decide (r.timestamp < now - d * 86400)) = 0
    · have hself : store.filter (fun r => !decide (r.timestamp < now - d * 86400)) = store := by
        rw [List.filter_eq_self]
        intro r hr
        simpa using List.countP_eq_zero.mp h0 r hr
      rw [if_pos h0, hself, h0]
    · rw [if_neg h0]
  refine ⟨?_, ?_, ?_, ?_, ?_⟩
  · rw [hdef 0, if_pos (by norm_num)]
  · rw [hdef 366, if_neg (by norm_num), if_pos (by norm_num)]
  · intro s hc
    rw [hdef 1, if_neg (by norm_num), if_neg (by norm_num)] at hc
    by_cases h : store.length = 0 <;> simp [h] at hc
  · intro s hc
    rw [hdef 365, if_neg (by norm_num), if_neg (by norm_num)] at hc
    by_cases h : store.length = 0 <;> simp [h] at hc
  · intro h1 h2 hne
    rw [hdef d, if_neg (by omega), if_neg (by omega),
      if_neg (fun hc => hne (List.length_eq_zero.mp hc)), hclean]

/-- Claim C7, witness: purge with retention 30 over a two-row store at
time 40 days, deleting exactly the row from 35 days ago. -/
theorem claim_C7_witness :
    handle_monitor_purge_command
        [⟨432000, "h", 25565, none, none, "offline", none⟩,
          ⟨3024000, "h", 25565, none, none, "offline", none⟩] 3456000 (some (.ok 30)) =
      .done [⟨3024000, "h", 25565, none, none, "offline", none⟩] 1 := by
  have h := (claim_C7_purge
    [⟨432000, "h", 25565, none, none, "offline", none⟩,
      ⟨3024000, "h", 25565, none, none, "offline", none⟩] 3456000 30).2.2.2.2
    (by norm_num) (by norm_num) (by decide)
  rw [h]
  decide

/-- Claim C1: in one poll tick every address pair receives at most one
new observation, and every monitored address pair (one reachable from
some enabled binding, in any group) receives exactly one — however many
bindings in however many groups reference it. -/
theorem claim_C1_dedup (bind : List (Int × List (String × String)))
    (monitor : List (String × Bool)) (now : Int)
    (probe : String × Int → Except String MCStatus) (rt : String × Int → ℚ)
    (x : String × Int) :
    obsCount (monitor_all_servers bind monitor now probe rt) x ≤ 1 ∧
      (MonitoredAddr bind monitor x →
        obsCount (monitor_all_servers bind monitor now probe rt) x = 1) := by
  have h := obsCount_monitor_all_servers bind monitor now probe rt x
  constructor
  · rw [h]
    split <;> norm_num
  · intro hm
    rw [h, if_pos ((mem_collectUniqueServers bind monitor x).mpr hm)]

/-- Claim C1, witness: two bindings in two different groups point to the
same monitored address; one tick appends exactly one observation for
that address, not two. -/
theorem claim_C1_witness :
    obsCount (monitor_all_servers
        [(1, [("A", "mc.example.com:25565")]), (2, [("B", "mc.example.com:25565")])]
        [("mc.example.com:25565", true)] 0
        (fun _ => .ok ⟨true, some ⟨true, some 3⟩⟩) (fun _ => 5))
      ("mc.example.com", 25565) = 1 :=
  (claim_C1_dedup
      [(1, [("A", "mc.example.com:25565")]), (2, [("B", "mc.example.com:25565")])]
      [("mc.example.com:25565", true)] 0
      (fun _ => .ok ⟨true, some ⟨true, some 3⟩⟩) (fun _ => 5)
      ("mc.example.com", 25565)).2
    ⟨(1, [("A", "mc.example.com:25565")]), by simp,
      ("A", "mc.example.com:25565"), by simp, by decide, by decide⟩

/-- Claim C5: a probe failure for one monitored address in a tick is
confined to that address — it is recorded as exactly one offline
observation carrying the failure description, and any other monitored
address still receives exactly one observation in the same tick; the
tick function is total, so the tick never raises to its caller. -/
theorem claim_C5_isolation (bind : List (Int × List (String × String)))
    (monitor : List (String × Bool)) (now : Int)
    (probe : String × Int → Except String MCStatus) (rt : String × Int → ℚ)
    (a b : String × Int) (msg : String)
    (ha : MonitoredAddr bind monitor a) (hb : MonitoredAddr bind monitor b)
    (hfail : probe a = .error msg) :
    obsCount (monitor_all_servers bind monitor now probe rt) a = 1 ∧
      save_server_offline_status_row now a.1 a.2 none (some msg)
        ∈ monitor_all_servers bind monitor now probe rt ∧
      obsCount (monitor_all_servers bind monitor now probe rt) b = 1 := by
  refine ⟨?_, ?_, ?_⟩
  · rw [obsCount_monitor_all_servers,
      if_pos ((mem_collectUniqueServers bind monitor a).mpr ha)]
  · have hmem : a ∈ collectUniqueServers bind monitor :=
      (mem_collectUniqueServers bind monitor a).mpr ha
    have hrow : monitor_one_server now probe rt a
        = save_server_offline_status_row now a.1 a.2 none (some msg) := by
      unfold monitor_one_server
      rw [hfail]
    rw [← hrow]
    exact List.mem_map_of_mem _ hmem
  · rw [obsCount_monitor_all_servers,
      if_pos ((mem_collectUniqueServers bind monitor b).mpr hb)]

/-- Claim C5, witness: two monitored addresses in one group; probing the
first raises and the second succeeds; the tick records one offline
observation with the failure message for the first and still records
exactly one observation for the second. -/
theorem claim_C5_witness :
    obsCount (monitor_all_servers [(1, [("A", "a.example.com"), ("B", "b.example.com")])]
        [("a.example.com", true), ("b.example.com", true)] 7
        (fun p => if p.1 == "a.example.com" then .error "boom"
          else .ok ⟨true, some ⟨true, some 2⟩⟩) (fun _ => 4))
      ("a.example.com", 25565) = 1 ∧
      save_server_offline_status_row 7 "a.example.com" 25565 none (some "boom")
        ∈ monitor_all_servers [(1, [("A", "a.example.com"), ("B", "b.example.com")])]
          [("a.example.com", true), ("b.example.com", true)] 7
          (fun p => if p.1 == "a.example.com" then .error "boom"
            else .ok ⟨true, some ⟨true, some 2⟩⟩) (fun _ => 4) ∧
      obsCount (monitor_all_servers [(1, [("A", "a.example.com"), ("B", "b.example.com")])]
          [("a.example.com", true), ("b.example.com", true)] 7
          (fun p => if p.1 == "a.example.com" then .error "boom"
            else .ok ⟨true, some ⟨true, some 2⟩⟩) (fun _ => 4))
        ("b.example.com", 25565) = 1 :=
  claim_C5_isolation [(1, [("A", "a.example.com"), ("B", "b.example.com")])]
    [("a.example.com", true), ("b.example.com", true)] 7
    (fun p => if p.1 == "a.example.com" then .error "boom"
      else .ok ⟨true, some ⟨true, some 2⟩⟩) (fun _ => 4)
    ("a.example.com", 25565) ("b.example.com", 25565) "boom"
    ⟨(1, [("A", "a.example.com"), ("B", "b.example.com")]), by simp,
      ("A", "a.example.com"), by simp, by decide, by decide⟩
    ⟨(1, [("A", "a.example.com"), ("B", "b.example.com")]), by simp,
      ("B", "b.example.com"), by simp, by decide, by decide⟩
    (by decide)

/-- Claim C10: for a bound server whose looked-up address has no entry
in the monitor-flags map, a disable request (off or false) returns
silently — no reply, map unchanged, the address gains no entry; in every
other valid case the handler updates exactly the flag entry of that one
address (all other addresses read the same afterwards) and replies. -/
theorem claim_C10_set (servers : List (String × String))
    (monitor : List (String × Bool)) (c0 c1 name st : String) (rest : List String)
    (addr : String)
    (hst : (pyLower st == "on" || pyLower st == "off" || pyLower st == "true"
      || pyLower st == "false") = true)
    (haddr : lookupBind servers name = some addr) :
    (lookupAssoc monitor addr = none →
        (pyLower st == "on" || pyLower st == "true") = false →
        handle_monitor_set_command (some servers) monitor (c0 :: c1 :: name :: st :: rest)
          = ⟨monitor, false⟩) ∧
      ((lookupAssoc monitor addr ≠ none ∨ (pyLower st == "on" || pyLower st == "true") = true) →
        handle_monitor_set_command (some servers) monitor (c0 :: c1 :: name :: st :: rest)
          = ⟨setAssoc monitor addr (pyLower st == "on" || pyLower st == "true"), true⟩) ∧
      (∀ v : Bool, ∀ other : String, other ≠ addr →
        lookupAssoc (setAssoc monitor addr v) other = lookupAssoc monitor other) ∧
      (∀ v : Bool, lookupAssoc (setAssoc monitor addr v) addr = some v) := by
  have hbase : handle_monitor_set_command (some servers) monitor
      (c0 :: c1 :: name :: st :: rest) =
      (if !(pyLower st == "on" || pyLower st == "off" || pyLower st == "true"
          || pyLower st == "false") then
        ({ monitor := monitor, replied := true } : SetOutcome)
      else
        match lookupBind servers name with
        | none => { monitor := monitor, replied := true }
        | some server_address =>
          if (lookupAssoc monitor server_address) = none
              && !(pyLower st == "on" || pyLower st == "true") then
            { monitor := monitor, replied := false }
          else
            { monitor := setAssoc monitor server_address
                (pyLower st == "on" || pyLower st == "true"), replied := true }) := rfl
  refine ⟨?_, ?_, ?_, ?_⟩
  · intro hnone hoff
    rw [hbase, hst, haddr]
    simp only [Bool.not_true, Bool.false_eq_true, if_false]
    rw [if_pos (by simp [hnone, hoff])]
  · intro hother
    rw [hbase, hst, haddr]
    simp only [Bool.not_true, Bool.false_eq_true, if_false]
    rw [if_neg ?_]
    rcases hother with hsome | hon
    · simp [hsome]
    · simp [hon]
  · intro v other hne
    rw [lookupAssoc_setAssoc, if_neg hne]
  · intro v
    rw [lookupAssoc_setAssoc, if_pos rfl]

/-- Claim C10, witness: disabling monitoring for a bound server whose
address is absent from an empty monitor map is a silent no-op. -/
theorem claim_C10_witness :
    handle_monitor_set_command (some [("A", "h:1")]) []
        ["/mcmonitor", "set", "A", "off"] = ⟨[], false⟩ :=
  (claim_C10_set [("A", "h:1")] [] "/mcmonitor" "set" "A" "off" [] "h:1"
      (by decide) (by decide)).1 (by decide) (by decide)
